import Mathlib

/-
Verification of scripts/validate_local.py, a command-line tool that reads
a JSON document and a JSON Schema from disk and reports whether the
document validates against the schema.

The script is embedded shallowly.  The file system is a partial map from
paths to file contents; the external library calls (json.loads and
jsonschema.validate) are parameters of the embedding, gathered in a
Library structure, since their algorithms live outside this repository.
The run function translates the script line by line and records its
observable effects: the files it attempts to read (in order), the lines
it prints to standard output, and how the process terminates.
-/

namespace ValidateLocal

/-- JSON values, as produced by json.loads.  The claims treat parsed
values opaquely (they are only handed to the validation capability), so
numbers are abstracted to integers. -/
inductive Json where
  | null : Json
  | bool : Bool → Json
  | num : Int → Json
  | str : String → Json
  | arr : List Json → Json
  | obj : List (String × Json) → Json

/-- Result of the external validation capability jsonschema.validate:
success, a ValidationError carrying a human-readable message, or any
other exception (for example a SchemaError). -/
inductive ValidateResult where
  | ok : ValidateResult
  | validationError : String → ValidateResult
  | otherError : String → ValidateResult
deriving DecidableEq

/-- The external library surface the script imports: json.loads, which
parses a string or raises, and jsonschema.validate. -/
structure Library where
  loads : String → Except String Json
  validate : Json → Json → ValidateResult

/-- The local file system: a path maps to its text content, or to none
when the file is missing or unreadable. -/
abbrev FS := String → Option String

/-- How the process terminates: a normal exit with an explicit exit
code (sys.exit or falling off the end of the script), or abnormal
termination from an uncaught exception that propagates out of the
script. -/
inductive Termination where
  | exit : Nat → Termination
  | unhandled : String → Termination
deriving DecidableEq

/-- The observable effects of one invocation: the paths whose reads
were attempted, in order; the lines printed to standard output, in
order; and the termination status. -/
structure Outcome where
  reads : List String
  stdout : List String
  term : Termination
deriving DecidableEq

/-- The usage message printed when fewer than two arguments are
supplied (line 10 of the script). -/
def usageLine : String := "Usage: validate_local.py <json-file> <schema-file>"

/-- Path.read_text: returns the file content or raises (for example
FileNotFoundError) when the file is missing or unreadable. -/
def readText (fs : FS) (path : String) : Except String String :=
  match fs path with
  | some text => Except.ok text
  | none => Except.error "FileNotFoundError"

/-- json.loads(path.read_text(encoding=utf-8)): read the file, then
parse its content; either step may raise. -/
def loadJson (lib : Library) (fs : FS) (path : String) : Except String Json :=
  match readText fs path with
  | Except.ok text => lib.loads text
  | Except.error e => Except.error e

/-- Shallow embedding of the whole script.  args is the list of
user-supplied command-line arguments, that is sys.argv without the
leading program name, so the guard len(sys.argv) < 3 becomes
args.length < 2.  The script never writes to the file system, so the
returned file system is the input one in every branch. -/
def run (lib : Library) (fs : FS) (args : List String) : Outcome × FS :=
  match args with
  | jfPath :: sfPath :: _ =>
    (match loadJson lib fs jfPath with
     | Except.error e => ⟨[jfPath], [], Termination.unhandled e⟩
     | Except.ok data =>
       match loadJson lib fs sfPath with
       | Except.error e => ⟨[jfPath, sfPath], [], Termination.unhandled e⟩
       | Except.ok schema =>
         match lib.validate data schema with
         | ValidateResult.ok =>
             ⟨[jfPath, sfPath], ["Validation OK"], Termination.exit 0⟩
         | ValidateResult.validationError m =>
             ⟨[jfPath, sfPath], ["Validation FAILED: " ++ m], Termination.exit 1⟩
         | ValidateResult.otherError m =>
             ⟨[jfPath, sfPath], [], Termination.unhandled m⟩,
     fs)
  | _ => (⟨[], [usageLine], Termination.exit 2⟩, fs)

/-- A concrete loads function used for witnesses: two recognized file
contents parse, everything else raises a parse error. -/
def demoLoads : String → Except String Json
  | "good-doc" => Except.ok (Json.obj [("name", Json.str "x")])
  | "good-schema" => Except.ok (Json.obj [("type", Json.str "object")])
  | _ => Except.error "Expecting value"

/-- A concrete library whose validation always succeeds. -/
def libOK : Library := ⟨demoLoads, fun _ _ => ValidateResult.ok⟩

/-- A concrete library whose validation always reports a
ValidationError with a fixed message. -/
def libReject : Library :=
  ⟨demoLoads, fun _ _ => ValidateResult.validationError "is not of type number"⟩

/-- A concrete library whose validation always raises an exception
other than ValidationError. -/
def libSchemaErr : Library :=
  ⟨demoLoads, fun _ _ => ValidateResult.otherError "SchemaError"⟩

/-- A concrete file system used for witnesses: a parseable document, a
parseable schema, a file with malformed content, and nothing else. -/
def demoFS : FS := fun p =>
  if p = "doc.json" then some "good-doc"
  else if p = "schema.json" then some "good-schema"
  else if p = "bad.json" then some "not-json"
  else none

/-- The script leaves the file system unchanged in every branch. -/
theorem run_snd (lib : Library) (fs : FS) (args : List String) :
    (run lib fs args).2 = fs := by
  match args with
  | [] => rfl
  | [_] => rfl
  | _ :: _ :: _ => rfl

/-- Loading from a missing or unreadable path raises. -/
theorem loadJson_missing (lib : Library) (fs : FS) (p : String)
    (h : fs p = none) :
    loadJson lib fs p = Except.error "FileNotFoundError" := by
  simp [loadJson, readText, h]

/-- Loading from a readable path hands the content to json.loads. -/
theorem loadJson_some (lib : Library) (fs : FS) (p t : String)
    (h : fs p = some t) :
    loadJson lib fs p = lib.loads t := by
  simp [loadJson, readText, h]

/-- If loading the document raises, the run records one attempted
read and terminates abnormally with that exception. -/
theorem run_doc_error (lib : Library) (fs : FS) (a1 a2 : String)
    (rest : List String) (e : String)
    (h : loadJson lib fs a1 = Except.error e) :
    run lib fs (a1 :: a2 :: rest) =
      (⟨[a1], [], Termination.unhandled e⟩, fs) := by
  simp [run, h]

/-- If the document loads but loading the schema raises, the run
records both attempted reads and terminates abnormally. -/
theorem run_schema_error (lib : Library) (fs : FS) (a1 a2 : String)
    (rest : List String) (dj : Json) (e : String)
    (h1 : loadJson lib fs a1 = Except.ok dj)
    (h2 : loadJson lib fs a2 = Except.error e) :
    run lib fs (a1 :: a2 :: rest) =
      (⟨[a1, a2], [], Termination.unhandled e⟩, fs) := by
  simp [run, h1, h2]

/-- If both files load, the outcome is decided by the validation
capability on the two decoded values. -/
theorem run_validate (lib : Library) (fs : FS) (a1 a2 : String)
    (rest : List String) (dj sj : Json)
    (h1 : loadJson lib fs a1 = Except.ok dj)
    (h2 : loadJson lib fs a2 = Except.ok sj) :
    run lib fs (a1 :: a2 :: rest) =
      (match lib.validate dj sj with
       | ValidateResult.ok =>
           ⟨[a1, a2], ["Validation OK"], Termination.exit 0⟩
       | ValidateResult.validationError m =>
           ⟨[a1, a2], ["Validation FAILED: " ++ m], Termination.exit 1⟩
       | ValidateResult.otherError m =>
           ⟨[a1, a2], [], Termination.unhandled m⟩,
       fs) := by
  simp [run, h1, h2]

/-- Case analysis on a two-argument invocation: every run reaches one
of the five outcome shapes (document-stage exception, schema-stage
exception, success, reported validation failure, or an exception from
the validation capability, the last folded into the second shape). -/
theorem run_shapes (lib : Library) (fs : FS) (a1 a2 : String)
    (rest : List String) :
    (∃ e, run lib fs (a1 :: a2 :: rest) =
      (⟨[a1], [], Termination.unhandled e⟩, fs)) ∨
    (∃ e, run lib fs (a1 :: a2 :: rest) =
      (⟨[a1, a2], [], Termination.unhandled e⟩, fs)) ∨
    run lib fs (a1 :: a2 :: rest) =
      (⟨[a1, a2], ["Validation OK"], Termination.exit 0⟩, fs) ∨
    (∃ m, run lib fs (a1 :: a2 :: rest) =
      (⟨[a1, a2], ["Validation FAILED: " ++ m], Termination.exit 1⟩, fs)) := by
  cases hd : loadJson lib fs a1 with
  | error e => exact Or.inl ⟨e, run_doc_error lib fs a1 a2 rest e hd⟩
  | ok dj =>
    cases hs : loadJson lib fs a2 with
    | error e =>
      exact Or.inr (Or.inl ⟨e, run_schema_error lib fs a1 a2 rest dj e hd hs⟩)
    | ok sj =>
      have h := run_validate lib fs a1 a2 rest dj sj hd hs
      cases hv : lib.validate dj sj with
      | ok =>
        rw [hv] at h
        exact Or.inr (Or.inr (Or.inl h))
      | validationError m =>
        rw [hv] at h
        exact Or.inr (Or.inr (Or.inr ⟨m, h⟩))
      | otherError m =>
        rw [hv] at h
        exact Or.inr (Or.inl ⟨m, h⟩)

/-- C1: for every pair of files holding a document and a schema that
both parse as JSON, when the validation capability accepts the pair,
the program prints exactly the line "Validation OK" and terminates
normally with exit code 0. -/
theorem claim_C1 (lib : Library) (fs : FS) (a1 a2 d s : String)
    (dj sj : Json)
    (h1 : fs a1 = some d) (h2 : fs a2 = some s)
    (h3 : lib.loads d = Except.ok dj) (h4 : lib.loads s = Except.ok sj)
    (h5 : lib.validate dj sj = ValidateResult.ok) :
    (run lib fs [a1, a2]).1.stdout = ["Validation OK"] ∧
    (run lib fs [a1, a2]).1.term = Termination.exit 0 := by
  have hd := (loadJson_some lib fs a1 d h1).trans h3
  have hs := (loadJson_some lib fs a2 s h2).trans h4
  have h := run_validate lib fs a1 a2 [] dj sj hd hs
  rw [h5] at h
  rw [h]
  exact ⟨rfl, rfl⟩

/-- Witness for C1: a concrete accepting run prints Validation OK and
exits 0. -/
theorem claim_C1_witness :
    (run libOK demoFS ["doc.json", "schema.json"]).1.stdout =
      ["Validation OK"] ∧
    (run libOK demoFS ["doc.json", "schema.json"]).1.term =
      Termination.exit 0 :=
  claim_C1 libOK demoFS "doc.json" "schema.json" "good-doc" "good-schema"
    (Json.obj [("name", Json.str "x")]) (Json.obj [("type", Json.str "object")])
    rfl rfl rfl rfl rfl

/-- C2: when both files parse and the validation capability reports a
ValidationError with message m, the program prints the single line
"Validation FAILED: " followed by m and terminates with exit code 1. -/
theorem claim_C2 (lib : Library) (fs : FS) (a1 a2 d s : String)
    (dj sj : Json) (m : String)
    (h1 : fs a1 = some d) (h2 : fs a2 = some s)
    (h3 : lib.loads d = Except.ok dj) (h4 : lib.loads s = Except.ok sj)
    (h5 : lib.validate dj sj = ValidateResult.validationError m) :
    (run lib fs [a1, a2]).1.stdout = ["Validation FAILED: " ++ m] ∧
    (run lib fs [a1, a2]).1.term = Termination.exit 1 := by
  have hd := (loadJson_some lib fs a1 d h1).trans h3
  have hs := (loadJson_some lib fs a2 s h2).trans h4
  have h := run_validate lib fs a1 a2 [] dj sj hd hs
  rw [h5] at h
  rw [h]
  exact ⟨rfl, rfl⟩

/-- Witness for C2: a concrete rejecting run prints the failure line
with the validator message and exits 1. -/
theorem claim_C2_witness :
    (run libReject demoFS ["doc.json", "schema.json"]).1.stdout =
      ["Validation FAILED: is not of type number"] ∧
    (run libReject demoFS ["doc.json", "schema.json"]).1.term =
      Termination.exit 1 :=
  claim_C2 libReject demoFS "doc.json" "schema.json" "good-doc" "good-schema"
    (Json.obj [("name", Json.str "x")]) (Json.obj [("type", Json.str "object")])
    "is not of type number" rfl rfl rfl rfl rfl

/-- C3: with fewer than two arguments, and regardless of the file
system, the program prints exactly the usage line, terminates with
exit code 2, attempts no file read, and leaves the file system
untouched. -/
theorem claim_C3 (lib : Library) (fs : FS) (args : List String)
    (h : args.length < 2) :
    run lib fs args = (⟨[], [usageLine], Termination.exit 2⟩, fs) := by
  match args with
  | [] => rfl
  | [_] => rfl
  | _ :: _ :: t =>
    simp only [List.length_cons] at h
    omega

/-- Witness for C3: one argument triggers the usage branch. -/
theorem claim_C3_witness :
    run libOK demoFS ["doc.json"] =
      (⟨[], [usageLine], Termination.exit 2⟩, demoFS) :=
  claim_C3 libOK demoFS ["doc.json"] (by decide)

/-- C4: with two arguments whose first path names no readable file,
the program neither prints Validation OK nor terminates with exit code
0 nor with exit code 1 (it dies on an unhandled exception instead). -/
theorem claim_C4 (lib : Library) (fs : FS) (a1 a2 : String)
    (h : fs a1 = none) :
    "Validation OK" ∉ (run lib fs [a1, a2]).1.stdout ∧
    (run lib fs [a1, a2]).1.term ≠ Termination.exit 0 ∧
    (run lib fs [a1, a2]).1.term ≠ Termination.exit 1 := by
  rw [run_doc_error lib fs a1 a2 [] "FileNotFoundError"
    (loadJson_missing lib fs a1 h)]
  exact ⟨by simp, by simp, by simp⟩

/-- Witness for C4: a concrete run on a missing document path. -/
theorem claim_C4_witness :
    "Validation OK" ∉ (run libOK demoFS ["missing.json", "schema.json"]).1.stdout ∧
    (run libOK demoFS ["missing.json", "schema.json"]).1.term ≠
      Termination.exit 0 ∧
    (run libOK demoFS ["missing.json", "schema.json"]).1.term ≠
      Termination.exit 1 :=
  claim_C4 libOK demoFS "missing.json" "schema.json" rfl

/-- C5: when either input file exists but its content fails to parse
as JSON, the program terminates abnormally (an unhandled exception)
and never prints Validation OK. -/
theorem claim_C5 (lib : Library) (fs : FS) (a1 a2 d s : String)
    (h1 : fs a1 = some d) (h2 : fs a2 = some s)
    (h3 : (∃ e, lib.loads d = Except.error e) ∨
          (∃ e, lib.loads s = Except.error e)) :
    (∃ m, (run lib fs [a1, a2]).1.term = Termination.unhandled m) ∧
    "Validation OK" ∉ (run lib fs [a1, a2]).1.stdout := by
  have hd := loadJson_some lib fs a1 d h1
  have hs := loadJson_some lib fs a2 s h2
  cases hld : lib.loads d with
  | error e =>
    rw [run_doc_error lib fs a1 a2 [] e (hd.trans hld)]
    exact ⟨⟨e, rfl⟩, by simp⟩
  | ok dj =>
    rcases h3 with ⟨e, he⟩ | ⟨e, he⟩
    · rw [hld] at he
      exact absurd he (by simp)
    · rw [run_schema_error lib fs a1 a2 [] dj e (hd.trans hld) (hs.trans he)]
      exact ⟨⟨e, rfl⟩, by simp⟩

/-- Witness for C5: a concrete run whose document file holds malformed
content dies unhandled without printing Validation OK. -/
theorem claim_C5_witness :
    (∃ m, (run libOK demoFS ["bad.json", "schema.json"]).1.term =
      Termination.unhandled m) ∧
    "Validation OK" ∉ (run libOK demoFS ["bad.json", "schema.json"]).1.stdout :=
  claim_C5 libOK demoFS "bad.json" "schema.json" "not-json" "good-schema"
    rfl rfl (Or.inl ⟨"Expecting value", rfl⟩)

/-- C6: the document file is the first read attempted, and the schema
read is attempted exactly when loading the document succeeded, after
it; in particular, if the document fails to read or parse, the schema
file is never opened. -/
theorem claim_C6 (lib : Library) (fs : FS) (a1 a2 : String)
    (rest : List String) :
    (run lib fs (a1 :: a2 :: rest)).1.reads =
      [a1] ++ (match loadJson lib fs a1 with
               | Except.ok _ => [a2]
               | Except.error _ => []) := by
  cases hd : loadJson lib fs a1 with
  | error e =>
    rw [run_doc_error lib fs a1 a2 rest e hd]
    rfl
  | ok dj =>
    cases hs : loadJson lib fs a2 with
    | error e =>
      rw [run_schema_error lib fs a1 a2 rest dj e hd hs]
      rfl
    | ok sj =>
      have h := run_validate lib fs a1 a2 rest dj sj hd hs
      rw [h]
      cases lib.validate dj sj <;> rfl

/-- C7: re-running the program on the file system the first run leaves
behind, with the same arguments, yields an identical outcome (same
reads, same stdout, same termination) and the same final file system:
the program keeps no hidden state. -/
theorem claim_C7 (lib : Library) (fs : FS) (args : List String) :
    (run lib (run lib fs args).2 args).1 = (run lib fs args).1 ∧
    (run lib (run lib fs args).2 args).2 = (run lib fs args).2 := by
  rw [run_snd lib fs args]
  exact ⟨rfl, run_snd lib fs args⟩

/-- C8: arguments beyond the first two are ignored: the run with extra
arguments equals, effects and all, the run on the first two alone. -/
theorem claim_C8 (lib : Library) (fs : FS) (a1 a2 : String)
    (extra : List String) :
    run lib fs (a1 :: a2 :: extra) = run lib fs [a1, a2] := rfl

/-- C9: on every run the file system is unchanged (no writes), at most
two file reads are attempted, and either exactly one line is printed
to standard output (the three defined paths: usage, success, reported
failure) or the run terminated abnormally. The model has no other
effect vocabulary: no network, no other observable effects. -/
theorem claim_C9 (lib : Library) (fs : FS) (args : List String) :
    (run lib fs args).2 = fs ∧
    (run lib fs args).1.reads.length ≤ 2 ∧
    ((run lib fs args).1.stdout.length = 1 ∨
      ∃ e, (run lib fs args).1.term = Termination.unhandled e) := by
  match args with
  | [] => exact ⟨rfl, by simp [run], Or.inl rfl⟩
  | [_] => exact ⟨rfl, by simp [run], Or.inl rfl⟩
  | a1 :: a2 :: rest =>
    rcases run_shapes lib fs a1 a2 rest with ⟨e, h⟩ | ⟨e, h⟩ | h | ⟨m, h⟩ <;>
      rw [h]
    · exact ⟨rfl, by simp, Or.inr ⟨e, rfl⟩⟩
    · exact ⟨rfl, by simp, Or.inr ⟨e, rfl⟩⟩
    · exact ⟨rfl, by simp, Or.inl rfl⟩
    · exact ⟨rfl, by simp, Or.inl rfl⟩

/-- C10: when the validation capability raises anything other than a
ValidationError, the exception is not caught: nothing at all is
printed (neither the OK line nor a FAILED line) and the run terminates
abnormally with that exception. -/
theorem claim_C10 (lib : Library) (fs : FS) (a1 a2 d s : String)
    (dj sj : Json) (m : String)
    (h1 : fs a1 = some d) (h2 : fs a2 = some s)
    (h3 : lib.loads d = Except.ok dj) (h4 : lib.loads s = Except.ok sj)
    (h5 : lib.validate dj sj = ValidateResult.otherError m) :
    (run lib fs [a1, a2]).1.stdout = [] ∧
    (run lib fs [a1, a2]).1.term = Termination.unhandled m := by
  have hd := (loadJson_some lib fs a1 d h1).trans h3
  have hs := (loadJson_some lib fs a2 s h2).trans h4
  have h := run_validate lib fs a1 a2 [] dj sj hd hs
  rw [h5] at h
  rw [h]
  exact ⟨rfl, rfl⟩

/-- Witness for C10: a concrete run whose validator raises a
SchemaError prints nothing and dies unhandled. -/
theorem claim_C10_witness :
    (run libSchemaErr demoFS ["doc.json", "schema.json"]).1.stdout = [] ∧
    (run libSchemaErr demoFS ["doc.json", "schema.json"]).1.term =
      Termination.unhandled "SchemaError" :=
  claim_C10 libSchemaErr demoFS "doc.json" "schema.json" "good-doc"
    "good-schema" (Json.obj [("name", Json.str "x")])
    (Json.obj [("type", Json.str "object")]) "SchemaError"
    rfl rfl rfl rfl rfl

end ValidateLocal
